import Mathlib

/-!
Shallow embedding of the ride-hailing dispatch core (Go sources under
internal/service and internal/domain) together with proofs about the
surge pricer, the matcher, the trip lifecycle, ride cancellation and the
idempotent payment step.

Modelling conventions:
* Go float64 values (coordinates, fares, multipliers) are embedded as ℚ.
* Go time.Time / time.Duration values are embedded as ℚ (seconds); the
  zero time is the rational 0, matching time.Time.IsZero.
* Go string enums (RideStatus, TripStatus, DriverStatus, PaymentStatus)
  are embedded as String together with the named constants from
  internal/domain, and compared by string equality, exactly as Go does.
* Repositories are embedded as in-memory lists; GetByID is a linear find
  by id, Update replaces the row with the matching id, Create appends.
  Storage is modelled as available: only the failures the claims are
  about (location store reads, PSP charges) are injected as parameters.
* Injected effect outcomes (redis lock acquisition, location store
  queries, PSP charges) are Except values passed as arguments, mirroring
  the corresponding Go interface calls.
-/

/-! ### Domain enums (internal/domain) -/

def RideStatusRequested : String := "REQUESTED"

def RideStatusAssigned : String := "ASSIGNED"

def RideStatusInTrip : String := "IN_TRIP"

def RideStatusCompleted : String := "COMPLETED"

def RideStatusCancelled : String := "CANCELLED"

def TripStatusStarted : String := "STARTED"

def TripStatusPaused : String := "PAUSED"

def TripStatusEnded : String := "ENDED"

def DriverStatusOnline : String := "ONLINE"

def DriverStatusOffline : String := "OFFLINE"

def DriverStatusOnTrip : String := "ON_TRIP"

def PaymentStatusPending : String := "PENDING"

def PaymentStatusSuccess : String := "SUCCESS"

def PaymentStatusFailed : String := "FAILED"

/-! ### Domain records (internal/domain) -/

structure Ride where
  id : String
  riderID : String
  pickupLat : ℚ
  pickupLng : ℚ
  destinationLat : ℚ
  destinationLng : ℚ
  status : String
  assignedDriverID : String
  surgeMultiplier : ℚ
  paymentMethod : String
  createdAt : ℚ
  cancelledAt : ℚ
  cancelReason : String
  deriving DecidableEq

structure Trip where
  id : String
  rideID : String
  driverID : String
  status : String
  fare : ℚ
  startedAt : ℚ
  endedAt : ℚ
  pausedAt : ℚ
  totalPaused : ℚ
  deriving DecidableEq

structure Driver where
  id : String
  name : String
  phone : String
  status : String
  tier : String
  deriving DecidableEq

structure Payment where
  id : String
  tripID : String
  amount : ℚ
  status : String
  idempotencyKey : String
  deriving DecidableEq

/-! ### Service errors (internal/service/errors.go) -/

inductive SvcError where
  | errInvalidRiderID
  | errInvalidRideID
  | errInvalidDriverID
  | errInvalidTripID
  | errInvalidPickupLocation
  | errInvalidDestinationLocation
  | errInvalidLocation
  | errInvalidPaymentAmount
  | errInvalidPaymentID
  | errInvalidPaymentMethod
  | errDriverHasActiveTrip
  | errRideNotAssigned
  | errDriverNotAssignedToRide
  | errTripAlreadyEnded
  | errTripNotStarted
  | errTripNotPaused
  | errRideAlreadyCancelled
  | errRideCannotBeCancelled
  | errTripInProgress
  | errRideNotInRequestedState
  | errNoDriverAvailable
  | errNotFound
  | errStore (msg : String)
  deriving DecidableEq

/-- HTTP status code for each service error, embedded from
mapErrorToHTTPStatus in internal/handler/driver.go. Errors the handler
does not list fall through to 500. -/
def errorStatusCode : SvcError → Nat
  | .errNotFound => 404
  | .errInvalidRiderID => 400
  | .errInvalidRideID => 400
  | .errInvalidDriverID => 400
  | .errInvalidTripID => 400
  | .errInvalidPickupLocation => 400
  | .errInvalidDestinationLocation => 400
  | .errInvalidLocation => 400
  | .errInvalidPaymentAmount => 400
  | .errInvalidPaymentID => 400
  | .errInvalidPaymentMethod => 400
  | .errDriverHasActiveTrip => 409
  | .errTripAlreadyEnded => 409
  | .errTripNotStarted => 409
  | .errTripNotPaused => 409
  | .errRideNotInRequestedState => 409
  | .errRideAlreadyCancelled => 409
  | .errRideCannotBeCancelled => 409
  | .errTripInProgress => 409
  | .errRideNotAssigned => 403
  | .errDriverNotAssignedToRide => 403
  | .errNoDriverAvailable => 503
  | .errStore _ => 500

/-! ### Repository model (lists indexed by id) -/

def findRide : List Ride → String → Option Ride
  | [], _ => none
  | r :: rest, rid => if r.id = rid then some r else findRide rest rid

def findTrip : List Trip → String → Option Trip
  | [], _ => none
  | t :: rest, tid => if t.id = tid then some t else findTrip rest tid

def findDriver : List Driver → String → Option Driver
  | [], _ => none
  | d :: rest, did => if d.id = did then some d else findDriver rest did

/-- TripRepository.GetActiveByDriverID: first trip of the driver whose
status differs from ENDED (trips table, WHERE driver_id AND status != ENDED). -/
def getActiveByDriverID : List Trip → String → Option Trip
  | [], _ => none
  | t :: rest, did =>
      if t.driverID = did ∧ t.status ≠ TripStatusEnded then some t
      else getActiveByDriverID rest did

def updateRide : List Ride → Ride → List Ride
  | [], _ => []
  | x :: rest, r => (if x.id = r.id then r else x) :: updateRide rest r

def updateTrip : List Trip → Trip → List Trip
  | [], _ => []
  | x :: rest, t => (if x.id = t.id then t else x) :: updateTrip rest t

def updateDriverStatus : List Driver → String → String → List Driver
  | [], _, _ => []
  | d :: rest, did, st =>
      (if d.id = did then { d with status := st } else d)
            :: updateDriverStatus rest did st

/-- Durable state touched by the services: rides, trips and drivers tables. -/
structure DB where
  rides : List Ride
  trips : List Trip
  drivers : List Driver
  deriving DecidableEq

/-! ### Surge pricer (internal/service/surge.go) -/

structure SurgeConfig where
  radiusKm : ℚ
  lowSurgeRt : ℚ
  medSurgeRt : ℚ
  highSurgeRt : ℚ
  maxSurge : ℚ
  deriving DecidableEq

/-- DefaultSurgeConfig from surge.go: 5 km radius and thresholds 1.2 /
1.5 / 2.0 with the surge capped at 2.0. -/
def DefaultSurgeConfig : SurgeConfig :=
  { radiusKm := 5, lowSurgeRt := 6/5, medSurgeRt := 3/2, highSurgeRt := 2, maxSurge := 2 }

/-- countDriversInArea: length of the location store answer; on a store
error the code returns the literal default 10. -/
def countDriversInArea (nearbyResult : Except String (List String)) : Nat :=
  match nearbyResult with
  | .error _ => 10
  | .ok drivers => drivers.length

/-- Loop body of countActiveRequestsInArea: skip rides whose status is
CANCELLED, then compare the squared degree offsets scaled by 111 * 111
against the squared radius scaled by 111 * 111. -/
def countActiveLoop : List Ride → ℚ → ℚ → ℚ → Nat
  | [], _, _, _ => 0
  | ride :: rest, lat, lng, radiusKm =>
      let restCount := countActiveLoop rest lat lng radiusKm
      if ride.status = RideStatusCancelled then restCount
      else
        let latDiff := ride.pickupLat - lat
        let lngDiff := ride.pickupLng - lng
        let distKm := ((latDiff * latDiff) + (lngDiff * lngDiff)) * 111 * 111
        if distKm ≤ radiusKm * radiusKm * 111 * 111 then restCount + 1 else restCount

/-- countActiveRequestsInArea: a failing rideRepo.GetAll yields count 0,
otherwise the loop above runs over every ride. -/
def countActiveRequestsInArea (ridesResult : Except String (List Ride))
    (lat lng radiusKm : ℚ) : Nat :=
  match ridesResult with
  | .error _ => 0
  | .ok rides => countActiveLoop rides lat lng radiusKm

/-- calculateSurgeMultiplier from surge.go: zero supply maps demand > 0
to the maximum surge, otherwise the demand/supply rational is compared
against the three thresholds in descending order. -/
def calculateSurgeMultiplier (supply demand : Nat) (config : SurgeConfig) : ℚ :=
  if supply = 0 then
    if demand > 0 then config.maxSurge else 1
  else
    let rt : ℚ := (demand : ℚ) / (supply : ℚ)
    if rt ≥ config.highSurgeRt then config.maxSurge
    else if rt ≥ config.medSurgeRt then 3/2
    else if rt ≥ config.lowSurgeRt then 5/4
    else 1

/-- GetMultiplier: supply from the location store (default 10 on error),
demand from the rides table, combined by calculateSurgeMultiplier under
the default configuration. -/
def GetMultiplier (nearbyResult : Except String (List String))
    (ridesResult : Except String (List Ride)) (lat lng : ℚ) : ℚ :=
  let config := DefaultSurgeConfig
  let supply := countDriversInArea nearbyResult
  let demand := countActiveRequestsInArea ridesResult lat lng config.radiusKm
  calculateSurgeMultiplier supply demand config

/-- Modelled from the spec: demand is the count of rides with status in
the set REQUESTED, ASSIGNED, IN_TRIP whose pickup lies within radiusKm
kilometres of the query point, using the straight-line approximation of
111 km per degree. This definition follows the specification words and
is compared against countActiveLoop, which is embedded from the code. -/
def specDemandCount : List Ride → ℚ → ℚ → ℚ → Nat
  | [], _, _, _ => 0
  | ride :: rest, lat, lng, radiusKm =>
      let restCount := specDemandCount rest lat lng radiusKm
      if (ride.status = RideStatusRequested ∨ ride.status = RideStatusAssigned ∨
            ride.status = RideStatusInTrip) ∧
          ((ride.pickupLat - lat) * (ride.pickupLat - lat) +
            (ride.pickupLng - lng) * (ride.pickupLng - lng)) * 111 * 111
            ≤ radiusKm * radiusKm
      then restCount + 1 else restCount

/-- Count matching what the code actually filters on: any ride whose
status is not CANCELLED and whose pickup offset satisfies the squared
comparison with the 111 * 111 factors cancelled, i.e. a disk of radius
radiusKm measured in degrees. -/
def degreeDiskDemandCount : List Ride → ℚ → ℚ → ℚ → Nat
  | [], _, _, _ => 0
  | ride :: rest, lat, lng, radiusKm =>
      let restCount := degreeDiskDemandCount rest lat lng radiusKm
      if ride.status ≠ RideStatusCancelled ∧
          (ride.pickupLat - lat) * (ride.pickupLat - lat) +
            (ride.pickupLng - lng) * (ride.pickupLng - lng)
            ≤ radiusKm * radiusKm
      then restCount + 1 else restCount

/-! ### Payment service (internal/service/payment.go) -/

def getByIdempotencyKey : List Payment → String → Option Payment
  | [], _ => none
  | p :: rest, key => if p.idempotencyKey = key then some p else getByIdempotencyKey rest key

def paymentUpdateStatus : List Payment → String → String → List Payment
  | [], _, _ => []
  | p :: rest, pid, st =>
      (if p.id = pid then { p with status := st } else p)
            :: paymentUpdateStatus rest pid st

/-- fmt.Sprintf of the stable idempotency key derived from the trip id. -/
def idempotencyKeyFor (tripID : String) : String := "payment:" ++ tripID

/-- Payment repository rows together with a counter of PSP.Charge
invocations, used to express that the idempotent path never charges. -/
structure PayState where
  payments : List Payment
  pspCalls : Nat
  deriving DecidableEq

/-- ProcessPayment from payment.go. The PSP.Charge outcome for this call
is injected as pspOutcome and the generated uuid as newID. A pre-existing
payment under the idempotency key is returned as is; otherwise a PENDING
payment is created, the PSP is charged once, and the status is updated to
SUCCESS or FAILED, with a PSP error swallowed into FAILED. -/
def ProcessPayment (pspOutcome : Except String Bool) (newID : String)
    (st : PayState) (tripID : String) (amount : ℚ) :
    Except SvcError (Payment × PayState) :=
  if tripID = "" then .error .errInvalidTripID
  else if amount ≤ 0 then .error .errInvalidPaymentAmount
  else
    let key := idempotencyKeyFor tripID
    match getByIdempotencyKey st.payments key with
    | some existing => .ok (existing, st)
    | none =>
        let payment : Payment :=
          { id := newID, tripID := tripID, amount := amount,
            status := PaymentStatusPending, idempotencyKey := key }
        let created := st.payments ++ [payment]
        let charged := st.pspCalls + 1
        match pspOutcome with
        | .error _ =>
            .ok ({ payment with status := PaymentStatusFailed },
              { payments := paymentUpdateStatus created newID PaymentStatusFailed,
                pspCalls := charged })
        | .ok true =>
            .ok ({ payment with status := PaymentStatusSuccess },
              { payments := paymentUpdateStatus created newID PaymentStatusSuccess,
                pspCalls := charged })
        | .ok false =>
            .ok ({ payment with status := PaymentStatusFailed },
              { payments := paymentUpdateStatus created newID PaymentStatusFailed,
                pspCalls := charged })

/-! ### Trip service (internal/service/trip.go) -/

/-- calculateFare from trip.go: 2.0 base plus 0.5 per minute over the
effective duration, raised to the 5.0 minimum when smaller. -/
def calculateFare (startTime endTime totalPaused : ℚ) : ℚ :=
  let baseFare : ℚ := 2
  let perMinuteRate : ℚ := 1/2
  let minimumFare : ℚ := 5
  let duration := (endTime - startTime) - totalPaused
  let minutes := duration / 60
  let fare := baseFare + minutes * perMinuteRate
  if fare < minimumFare then minimumFare else fare

/-- StartTrip from trip.go: reject empty ids, reject a driver with an
active trip, require the ride to be ASSIGNED to this driver, then in one
transaction create the STARTED trip, move the ride to IN_TRIP and the
driver to ON_TRIP. The generated trip uuid is injected as newTripID. -/
def StartTrip (newTripID : String) (db : DB) (rideID driverID : String) (now : ℚ) :
    Except SvcError (Trip × DB) :=
  if rideID = "" then .error .errInvalidRideID
  else if driverID = "" then .error .errInvalidDriverID
  else
    match getActiveByDriverID db.trips driverID with
    | some _ => .error .errDriverHasActiveTrip
    | none =>
        match findRide db.rides rideID with
        | none => .error .errNotFound
        | some ride =>
            if ride.status ≠ RideStatusAssigned then .error .errRideNotAssigned
            else if ride.assignedDriverID ≠ driverID then .error .errDriverNotAssignedToRide
            else
              let trip : Trip :=
                { id := newTripID, rideID := rideID, driverID := driverID,
                  status := TripStatusStarted, fare := 0, startedAt := now,
                  endedAt := 0, pausedAt := 0, totalPaused := 0 }
              let ride2 := { ride with status := RideStatusInTrip }
              .ok (trip,
                { rides := updateRide db.rides ride2,
                  trips := db.trips ++ [trip],
                  drivers := updateDriverStatus db.drivers driverID DriverStatusOnTrip })

structure EndTripResp where
  trip : Trip
  payment : Option Payment
  deriving DecidableEq

/-- EndTrip from trip.go. The paymentService.ProcessPayment call is
injected as processPmt, mirroring the service dependency; its error is
dropped (payment becomes nil) and never fails the operation. Receipt
generation and the best-effort route are pure projections
that do not affect the durable state and are not modelled. -/
def EndTrip (processPmt : String → ℚ → Except SvcError Payment)
    (db : DB) (tripID : String) (now : ℚ) :
    Except SvcError (EndTripResp × DB) :=
  if tripID = "" then .error .errInvalidTripID
  else
    match findTrip db.trips tripID with
    | none => .error .errNotFound
    | some trip0 =>
        if trip0.status = TripStatusEnded then .error .errTripAlreadyEnded
        else
          let trip1 :=
            if trip0.status = TripStatusPaused ∧ trip0.pausedAt ≠ 0 then
              { trip0 with totalPaused := trip0.totalPaused + (now - trip0.pausedAt) }
            else trip0
          match findRide db.rides trip1.rideID with
          | none => .error .errNotFound
          | some ride =>
              let baseFare := calculateFare trip1.startedAt now trip1.totalPaused
              let surge := if ride.surgeMultiplier < 1 then 1 else ride.surgeMultiplier
              let fare := baseFare * surge
              let trip2 := { trip1 with status := TripStatusEnded, fare := fare, endedAt := now }
              let ride2 := { ride with status := RideStatusCompleted }
              let db2 : DB :=
                { rides := updateRide db.rides ride2,
                  trips := updateTrip db.trips trip2,
                  drivers := updateDriverStatus db.drivers trip2.driverID DriverStatusOnline }
              let payment : Option Payment :=
                match processPmt trip2.id fare with
                | .ok p => some p
                | .error _ => none
              .ok ({ trip := trip2, payment := payment }, db2)

/-! ### Ride service (ride.go: CreateRide, CancelRide) -/

/-- CancelRide from ride.go. It returns the service outcome paired with
the rides table after the call: rejected cancellations perform no write,
so the table is returned unchanged there. -/
def CancelRide (db : DB) (rideID cancelledBy reason : String) (now : ℚ) :
    Except SvcError Ride × DB :=
  if rideID = "" then (.error .errInvalidRideID, db)
  else
    match findRide db.rides rideID with
    | none => (.error .errNotFound, db)
    | some ride =>
        if ride.status = RideStatusCancelled then (.error .errRideAlreadyCancelled, db)
        else if ride.status ≠ RideStatusRequested ∧ ride.status ≠ RideStatusAssigned then
          (.error .errRideCannotBeCancelled, db)
        else
          let ride2 := { ride with
            status := RideStatusCancelled
            cancelledAt := now
            cancelReason := reason }
          (.ok ride2, { db with rides := updateRide db.rides ride2 })

/-! ### Matching service (internal/service/matching.go) -/

/-- CachedDriver from internal/redis: plain string fields. -/
structure CachedDriver where
  id : String
  name : String
  phone : String
  status : String
  tier : String
  deriving DecidableEq

/-- DriverStatus(cached.Status) and DriverTier(cached.Tier) are string
casts in Go, so cachedToDriver is a field-wise copy. -/
def cachedToDriver (cached : CachedDriver) : Driver :=
  { id := cached.id, name := cached.name, phone := cached.phone,
    status := cached.status, tier := cached.tier }

def lookupCache : List (String × CachedDriver) → String → Option CachedDriver
  | [], _ => none
  | (k, v) :: rest, key => if k = key then some v else lookupCache rest key

structure MatchRequest where
  rideID : String
  lat : ℚ
  lng : ℚ
  tier : String
  radiusKm : ℚ
  deriving DecidableEq

structure MatchResult where
  driverID : String
  ride : Ride
  deriving DecidableEq

/-- Redis-backed effect outcomes consumed by Match: the ride lock
acquisition, the location store nearby query and the per-driver lock
acquisitions, plus the driver cache contents. -/
structure MatchEnv where
  hasCacheStore : Bool
  acquireRideLockResult : Except String Bool
  nearbyResult : Except String (List String)
  cache : List (String × CachedDriver)
  acquireDriverLockResult : String → Except String Bool

/-- assignDriver from matching.go: one transaction that moves the ride
to ASSIGNED with this driver and the driver to ON_TRIP. -/
def assignDriver (db : DB) (ride : Ride) (driver : Driver) : MatchResult × DB :=
  let ride2 := { ride with status := RideStatusAssigned, assignedDriverID := driver.id }
  ({ driverID := driver.id, ride := ride2 },
    { db with rides := updateRide db.rides ride2,
              drivers := updateDriverStatus db.drivers driver.id DriverStatusOnTrip })

/-- Candidate loop of Match: cheap filter on the cached record when
present, fall back to the repository row, tier and ONLINE filters, the
driver lock, the fresh re-read under the lock, then atomic assignment.
A lock store error aborts the whole match; every other failure skips to
the next candidate. -/
def matchLoop (env : MatchEnv) (db : DB) (req : MatchRequest) (ride : Ride) :
    List String → Except SvcError (MatchResult × DB)
  | [] => .error .errNoDriverAvailable
  | driverID :: rest =>
      let driverFound : Option Driver :=
        match lookupCache env.cache driverID with
        | some cached =>
            if cached.status ≠ DriverStatusOnline then none
            else if req.tier ≠ "" ∧ cached.tier ≠ req.tier then none
            else some (cachedToDriver cached)
        | none => findDriver db.drivers driverID
      match driverFound with
      | none => matchLoop env db req ride rest
      | some driver =>
          if driver.status ≠ DriverStatusOnline then matchLoop env db req ride rest
          else if req.tier ≠ "" ∧ driver.tier ≠ req.tier then matchLoop env db req ride rest
          else
            match env.acquireDriverLockResult driverID with
            | .error e => .error (.errStore e)
            | .ok false => matchLoop env db req ride rest
            | .ok true =>
                match findDriver db.drivers driverID with
                | none => matchLoop env db req ride rest
                | some freshDriver =>
                    if freshDriver.status ≠ DriverStatusOnline then
                      matchLoop env db req ride rest
                    else
                      let assigned := assignDriver db ride freshDriver
                      .ok assigned

/-- Match from matching.go. The ride lock is taken when a cache store is
wired; the ride must be REQUESTED; the nearby query error is returned to
the caller as is; an empty candidate list and an exhausted loop yield
the no-driver-available error. The radius only parametrises the injected
nearby query, whose outcome is env.nearbyResult. -/
def Match (env : MatchEnv) (db : DB) (req : MatchRequest) :
    Except SvcError (MatchResult × DB) :=
  let afterLock :=
    match findRide db.rides req.rideID with
    | none => .error .errNotFound
    | some ride =>
        if ride.status ≠ RideStatusRequested then .error .errRideNotInRequestedState
        else
          match env.nearbyResult with
          | .error e => .error (.errStore e)
          | .ok nearbyDrivers =>
              if nearbyDrivers.length = 0 then .error .errNoDriverAvailable
              else matchLoop env db req ride nearbyDrivers
  if env.hasCacheStore then
    match env.acquireRideLockResult with
    | .error e => .error (.errStore e)
    | .ok false => .error .errRideNotInRequestedState
    | .ok true => afterLock
  else afterLock

/-! ### Concrete fixtures used by witnesses and counterexamples -/

/-- REQUESTED ride whose pickup is the origin. -/
def surgeProbeRide : Ride :=
  { id := "ride-req", riderID := "u1", pickupLat := 0, pickupLng := 0,
    destinationLat := 1, destinationLng := 1, status := RideStatusRequested,
    assignedDriverID := "", surgeMultiplier := 1, paymentMethod := "CASH",
    createdAt := 0, cancelledAt := 0, cancelReason := "" }

/-- COMPLETED ride whose pickup is the origin. -/
def completedPickupRide : Ride :=
  { surgeProbeRide with
    id := "ride-done"
    status := RideStatusCompleted
    assignedDriverID := "d1" }

/-- REQUESTED ride whose pickup sits three degrees of latitude away,
roughly 333 km from the origin. -/
def farRequestedRide : Ride :=
  { surgeProbeRide with id := "ride-far", pickupLat := 3 }

def paymentW : Payment :=
  { id := "pay-1", tripID := "trip-1", amount := 25/2,
    status := PaymentStatusSuccess, idempotencyKey := idempotencyKeyFor "trip-1" }

def payStateW : PayState := { payments := [paymentW], pspCalls := 1 }

def payStateEmpty : PayState := { payments := [], pspCalls := 0 }

def driverW : Driver :=
  { id := "d1", name := "Asha", phone := "555-0101",
    status := DriverStatusOnline, tier := "BASIC" }

def rideAssignedW : Ride :=
  { surgeProbeRide with
    id := "r1"
    status := RideStatusAssigned
    assignedDriverID := "d1" }

def tripStartedW : Trip :=
  { id := "t1", rideID := "r1", driverID := "d1", status := TripStatusStarted,
    fare := 0, startedAt := 0, endedAt := 0, pausedAt := 0, totalPaused := 0 }

/-- Database with one ASSIGNED ride, its driver ON_TRIP and a running trip. -/
def dbTripW : DB :=
  { rides := [{ rideAssignedW with status := RideStatusInTrip }],
    trips := [tripStartedW],
    drivers := [{ driverW with status := DriverStatusOnTrip }] }

/-- Payment step stub that always fails, exercising the absorbed-error path. -/
def endPayFnW : String → ℚ → Except SvcError Payment :=
  fun _ _ => .error (.errStore "psp down")

def endedTripW : Trip :=
  { tripStartedW with status := TripStatusEnded, fare := 7, endedAt := 600 }

def respW : EndTripResp := { trip := endedTripW, payment := none }

def dbTripW' : DB :=
  { rides := [{ rideAssignedW with status := RideStatusCompleted }],
    trips := [endedTripW],
    drivers := [{ driverW with status := DriverStatusOnline }] }

/-- Database where driver d1 is free and ride r1 is ASSIGNED to d1. -/
def dbStartW : DB :=
  { rides := [rideAssignedW], trips := [], drivers := [driverW] }

/-- Database where driver d1 already has an active (STARTED) trip. -/
def dbActiveW : DB :=
  { rides := [rideAssignedW], trips := [tripStartedW], drivers := [driverW] }

/-- Database where ride r1 is still REQUESTED. -/
def dbRequestedW : DB :=
  { rides := [{ rideAssignedW with status := RideStatusRequested, assignedDriverID := "" }],
    trips := [], drivers := [driverW] }

/-- Database where ride r1 is ASSIGNED to a different driver d2. -/
def dbOtherDriverW : DB :=
  { rides := [{ rideAssignedW with assignedDriverID := "d2" }],
    trips := [], drivers := [driverW] }

/-- Databases for the cancellation claims: one cancellable ASSIGNED ride
with its driver ON_TRIP, one already-CANCELLED ride, one IN_TRIP ride. -/
def dbCancelW : DB :=
  { rides := [rideAssignedW], trips := [],
    drivers := [{ driverW with status := DriverStatusOnTrip }] }

def dbCancelledW : DB :=
  { rides := [{ rideAssignedW with status := RideStatusCancelled }], trips := [],
    drivers := [driverW] }

def dbInTripW : DB :=
  { rides := [{ rideAssignedW with status := RideStatusInTrip }], trips := [tripStartedW],
    drivers := [{ driverW with status := DriverStatusOnTrip }] }

/-- Match fixtures: a REQUESTED ride and a redis environment whose
nearby query fails. -/
def rideRequestedM : Ride :=
  { surgeProbeRide with id := "rm1" }

def dbMatchW : DB :=
  { rides := [rideRequestedM], trips := [], drivers := [driverW] }

def reqMatchW : MatchRequest :=
  { rideID := "rm1", lat := 0, lng := 0, tier := "", radiusKm := 0 }

def envNearbyFailW : MatchEnv :=
  { hasCacheStore := true,
    acquireRideLockResult := .ok true,
    nearbyResult := .error "redis: connection refused",
    cache := [],
    acquireDriverLockResult := fun _ => .ok true }

def envNearbyEmptyW : MatchEnv :=
  { envNearbyFailW with nearbyResult := .ok [] }

/-! ### Helper lemmas -/

theorem mul_111_sq_le (a b : ℚ) : a * 111 * 111 ≤ b * 111 * 111 ↔ a ≤ b := by
  constructor <;> intro h <;> nlinarith

theorem calculateFare_eq_max (s e p : ℚ) :
    calculateFare s e p = max (2 + ((e - s - p) / 60) * (1/2)) 5 := by
  unfold calculateFare
  by_cases h : 2 + ((e - s - p) / 60) * (1/2) < 5
  · rw [if_pos h, max_eq_right h.le]
  · rw [if_neg h, max_eq_left (not_lt.mp h)]

theorem surge_floor_eq_max (x : ℚ) : (if x < 1 then (1:ℚ) else x) = max 1 x := by
  by_cases h : x < 1
  · rw [if_pos h, max_eq_left h.le]
  · rw [if_neg h, max_eq_right (not_lt.mp h)]

theorem findTrip_id {trips : List Trip} {tid : String} {t : Trip}
    (h : findTrip trips tid = some t) : t.id = tid := by
  induction trips with
  | nil => simp [findTrip] at h
  | cons x rest ih =>
      unfold findTrip at h
      by_cases hx : x.id = tid
      · rw [if_pos hx] at h
        injection h with h
        rw [← h]
        exact hx
      · rw [if_neg hx] at h
        exact ih h

theorem findRide_id {rides : List Ride} {rid : String} {r : Ride}
    (h : findRide rides rid = some r) : r.id = rid := by
  induction rides with
  | nil => simp [findRide] at h
  | cons x rest ih =>
      unfold findRide at h
      by_cases hx : x.id = rid
      · rw [if_pos hx] at h
        injection h with h
        rw [← h]
        exact hx
      · rw [if_neg hx] at h
        exact ih h

theorem findTrip_updateTrip {trips : List Trip} {tid : String} {t : Trip} (t' : Trip)
    (h : findTrip trips tid = some t) (hid : t'.id = t.id) :
    findTrip (updateTrip trips t') tid = some t' := by
  induction trips with
  | nil => simp [findTrip] at h
  | cons x rest ih =>
      unfold findTrip at h
      unfold updateTrip findTrip
      by_cases hx : x.id = tid
      · rw [if_pos hx] at h
        injection h with h
        subst h
        rw [if_pos (hid.trans rfl).symm, if_pos (hid.trans hx)]
      · rw [if_neg hx] at h
        have ht : t.id = tid := findTrip_id h
        have hne : ¬ x.id = t'.id := by
          intro hcontra
          exact hx (by rw [hcontra, hid, ht])
        rw [if_neg hne, if_neg hx]
        exact ih h

theorem findRide_updateRide {rides : List Ride} {rid : String} {r : Ride} (r' : Ride)
    (h : findRide rides rid = some r) (hid : r'.id = r.id) :
    findRide (updateRide rides r') rid = some r' := by
  induction rides with
  | nil => simp [findRide] at h
  | cons x rest ih =>
      unfold findRide at h
      unfold updateRide findRide
      by_cases hx : x.id = rid
      · rw [if_pos hx] at h
        injection h with h
        subst h
        rw [if_pos (hid.trans rfl).symm, if_pos (hid.trans hx)]
      · rw [if_neg hx] at h
        have hr : r.id = rid := findRide_id h
        have hne : ¬ x.id = r'.id := by
          intro hcontra
          exact hx (by rw [hcontra, hid, hr])
        rw [if_neg hne, if_neg hx]
        exact ih h

theorem findDriver_updateDriverStatus {drivers : List Driver} {did : String} {d : Driver}
    (st : String) (h : findDriver drivers did = some d) :
    findDriver (updateDriverStatus drivers did st) did = some { d with status := st } := by
  induction drivers with
  | nil => simp [findDriver] at h
  | cons x rest ih =>
      unfold findDriver at h
      unfold updateDriverStatus findDriver
      by_cases hx : x.id = did
      · rw [if_pos hx] at h
        injection h with h
        subst h
        rw [if_pos hx, if_pos (show ({ x with status := st } : Driver).id = did from hx)]
      · rw [if_neg hx] at h
        rw [if_neg hx, if_neg hx]
        exact ih h

/-! ### Surge pricer theorems -/

/-- C5: with the default configuration, the surge multiplier is 2.0 when
supply is zero and demand positive, 1.0 when both are zero, and otherwise
follows the demand/supply ratio table with inclusive boundaries 2.0, 1.5
and 1.2 mapping to 2.0, 1.5 and 1.25; the result is always one of 1.0,
1.25, 1.5, 2.0. -/
theorem surge_multiplier_table (supply demand : Nat) :
    (supply = 0 →
      calculateSurgeMultiplier supply demand DefaultSurgeConfig
        = if 0 < demand then 2 else 1)
  ∧ (supply ≠ 0 → (2:ℚ) ≤ (demand:ℚ) / (supply:ℚ) →
      calculateSurgeMultiplier supply demand DefaultSurgeConfig = 2)
  ∧ (supply ≠ 0 → (demand:ℚ) / (supply:ℚ) < 2 → (3:ℚ)/2 ≤ (demand:ℚ) / (supply:ℚ) →
      calculateSurgeMultiplier supply demand DefaultSurgeConfig = 3/2)
  ∧ (supply ≠ 0 → (demand:ℚ) / (supply:ℚ) < 3/2 → (6:ℚ)/5 ≤ (demand:ℚ) / (supply:ℚ) →
      calculateSurgeMultiplier supply demand DefaultSurgeConfig = 5/4)
  ∧ (supply ≠ 0 → (demand:ℚ) / (supply:ℚ) < 6/5 →
      calculateSurgeMultiplier supply demand DefaultSurgeConfig = 1)
  ∧ (calculateSurgeMultiplier supply demand DefaultSurgeConfig = 1 ∨
      calculateSurgeMultiplier supply demand DefaultSurgeConfig = 5/4 ∨
      calculateSurgeMultiplier supply demand DefaultSurgeConfig = 3/2 ∨
      calculateSurgeMultiplier supply demand DefaultSurgeConfig = 2) := by
  unfold calculateSurgeMultiplier DefaultSurgeConfig
  refine ⟨?_, ?_, ?_, ?_, ?_, ?_⟩
  · intro h
    simp [h]
  · intro h h2
    rw [if_neg h]
    simp only [ge_iff_le]
    rw [if_pos h2]
  · intro h h2 h15
    rw [if_neg h]
    simp only [ge_iff_le]
    rw [if_neg (not_le.mpr h2), if_pos h15]
  · intro h h15 h12
    rw [if_neg h]
    simp only [ge_iff_le]
    rw [if_neg (not_le.mpr (h15.trans (by norm_num))), if_neg (not_le.mpr h15), if_pos h12]
  · intro h h12
    rw [if_neg h]
    simp only [ge_iff_le]
    rw [if_neg (not_le.mpr (h12.trans (by norm_num))),
      if_neg (not_le.mpr (h12.trans (by norm_num))), if_neg (not_le.mpr h12)]
  · by_cases h : supply = 0
    · rw [if_pos h]
      by_cases hd : demand > 0
      · rw [if_pos hd]; right; right; right; rfl
      · rw [if_neg hd]; left; rfl
    · rw [if_neg h]
      simp only [ge_iff_le]
      by_cases h2 : (2:ℚ) ≤ (demand:ℚ) / (supply:ℚ)
      · rw [if_pos h2]; right; right; right; rfl
      · rw [if_neg h2]
        by_cases h15 : (3:ℚ)/2 ≤ (demand:ℚ) / (supply:ℚ)
        · rw [if_pos h15]; right; right; left; rfl
        · rw [if_neg h15]
          by_cases h12 : (6:ℚ)/5 ≤ (demand:ℚ) / (supply:ℚ)
          · rw [if_pos h12]; right; left; rfl
          · rw [if_neg h12]; left; rfl

/-- Witness for surge_multiplier_table: the zero-supply case and the
three boundary ratios 6/5, 3/2 and 2 at concrete supply/demand pairs. -/
theorem surge_multiplier_table_witness :
    calculateSurgeMultiplier 0 1 DefaultSurgeConfig = 2
  ∧ calculateSurgeMultiplier 5 6 DefaultSurgeConfig = 5/4
  ∧ calculateSurgeMultiplier 2 3 DefaultSurgeConfig = 3/2
  ∧ calculateSurgeMultiplier 1 2 DefaultSurgeConfig = 2 := by
  refine ⟨?_, ?_, ?_, ?_⟩
  · have h := (surge_multiplier_table 0 1).1 rfl
    simpa using h
  · exact (surge_multiplier_table 5 6).2.2.2.1 (by decide) (by norm_num) (by norm_num)
  · exact (surge_multiplier_table 2 3).2.2.1 (by decide) (by norm_num) (by norm_num)
  · exact (surge_multiplier_table 1 2).2.1 (by decide) (by norm_num)

theorem surge_supply_ten (d : Nat) :
    calculateSurgeMultiplier 10 d DefaultSurgeConfig
      = if 20 ≤ d then 2 else if 15 ≤ d then 3/2 else if 12 ≤ d then 5/4 else 1 := by
  have h2 : ((2:ℚ) ≤ (d:ℚ) / ((10:Nat):ℚ)) ↔ 20 ≤ d := by
    rw [le_div_iff (by norm_num : (0:ℚ) < ((10:Nat):ℚ))]
    norm_num
  have h15 : ((3:ℚ)/2 ≤ (d:ℚ) / ((10:Nat):ℚ)) ↔ 15 ≤ d := by
    rw [le_div_iff (by norm_num : (0:ℚ) < ((10:Nat):ℚ))]
    norm_num
  have h12 : ((6:ℚ)/5 ≤ (d:ℚ) / ((10:Nat):ℚ)) ↔ 12 ≤ d := by
    rw [le_div_iff (by norm_num : (0:ℚ) < ((10:Nat):ℚ))]
    norm_num
  unfold calculateSurgeMultiplier DefaultSurgeConfig
  rw [if_neg (by norm_num : ¬ (10:Nat) = 0)]
  simp only [ge_iff_le, h2, h15, h12]

theorem countActive_probe_replicate (n : Nat) :
    countActiveLoop (List.replicate n surgeProbeRide) 0 0 5 = n := by
  induction n with
  | zero => rfl
  | succ k ih =>
      rw [List.replicate_succ]
      simp only [countActiveLoop]
      rw [ih, if_neg (by decide : ¬ surgeProbeRide.status = RideStatusCancelled),
        if_pos (by norm_num [surgeProbeRide])]

/-- C4 counterexample: with the location store failing and twenty
REQUESTED rides at the query point, GetMultiplier returns 2.0, not the
1.0 the claim requires for every demand count. -/
theorem surge_fail_open_counterexample :
    GetMultiplier (.error "redis unavailable")
        (.ok (List.replicate 20 surgeProbeRide)) 0 0 = 2
  ∧ ¬ GetMultiplier (.error "redis unavailable")
        (.ok (List.replicate 20 surgeProbeRide)) 0 0 = 1 := by
  have hd : countActiveRequestsInArea (.ok (List.replicate 20 surgeProbeRide)) 0 0
      DefaultSurgeConfig.radiusKm = 20 := by
    show countActiveLoop _ 0 0 DefaultSurgeConfig.radiusKm = 20
    rw [show DefaultSurgeConfig.radiusKm = 5 from rfl]
    exact countActive_probe_replicate 20
  have h : GetMultiplier (.error "redis unavailable")
      (.ok (List.replicate 20 surgeProbeRide)) 0 0 = 2 := by
    show calculateSurgeMultiplier (countDriversInArea (.error "redis unavailable"))
      (countActiveRequestsInArea (.ok (List.replicate 20 surgeProbeRide)) 0 0
        DefaultSurgeConfig.radiusKm) DefaultSurgeConfig = 2
    rw [hd, show countDriversInArea (.error "redis unavailable") = 10 from rfl,
      surge_supply_ten]
    norm_num
  exact ⟨h, by rw [h]; norm_num⟩

/-- C4 (amended): when the location store query fails, the supply count
falls back to the literal default 10, so GetMultiplier returns 1.0
exactly for demand counts below 12, and still surges to 1.25, 1.5 or 2.0
once the demand in the area reaches 12, 15 or 20. -/
theorem surge_store_error_default_supply (emsg : String)
    (ridesResult : Except String (List Ride)) (lat lng : ℚ) :
    GetMultiplier (.error emsg) ridesResult lat lng
      = (if 20 ≤ countActiveRequestsInArea ridesResult lat lng 5 then 2
         else if 15 ≤ countActiveRequestsInArea ridesResult lat lng 5 then 3/2
         else if 12 ≤ countActiveRequestsInArea ridesResult lat lng 5 then 5/4
         else 1) := by
  show calculateSurgeMultiplier (countDriversInArea (.error emsg)) _ DefaultSurgeConfig = _
  rw [show countDriversInArea (.error emsg) = 10 from rfl]
  exact surge_supply_ten _

/-- C3 counterexample: a COMPLETED ride at the query point is counted as
demand by the code, and a REQUESTED ride three degrees (about 333 km)
away is also counted, while the claimed characterisation (status in
REQUESTED, ASSIGNED, IN_TRIP and pickup within 5 km) counts neither. -/
theorem demand_count_counterexample :
    countActiveRequestsInArea (.ok [completedPickupRide]) 0 0 5 = 1
  ∧ specDemandCount [completedPickupRide] 0 0 5 = 0
  ∧ countActiveRequestsInArea (.ok [farRequestedRide]) 0 0 5 = 1
  ∧ specDemandCount [farRequestedRide] 0 0 5 = 0 := by
  refine ⟨?_, ?_, ?_, ?_⟩
  · show countActiveLoop [completedPickupRide] 0 0 5 = 1
    simp only [countActiveLoop]
    rw [if_neg (by decide : ¬ completedPickupRide.status = RideStatusCancelled),
      if_pos (by norm_num [completedPickupRide, surgeProbeRide])]
  · simp only [specDemandCount]
    rw [if_neg ?_]
    intro hcontra
    exact absurd hcontra.1 (by decide)
  · show countActiveLoop [farRequestedRide] 0 0 5 = 1
    simp only [countActiveLoop]
    rw [if_neg (by decide : ¬ farRequestedRide.status = RideStatusCancelled),
      if_pos (by norm_num [farRequestedRide, surgeProbeRide])]
  · simp only [specDemandCount]
    rw [if_neg ?_]
    intro hcontra
    refine absurd hcontra.2 ?_
    norm_num [farRequestedRide, surgeProbeRide]

/-- C3 (amended): the demand count equals the number of rides whose
status is anything other than CANCELLED (REQUESTED, ASSIGNED, IN_TRIP
and COMPLETED all count) and whose pickup offset from the query point
lies within the disk of radius radiusKm measured in degrees: the
111 * 111 factors on the two sides of the code's comparison cancel, so
the filter admits pickups up to radiusKm degrees (about 111 km per
degree) away, not radiusKm kilometres. -/
theorem demand_count_amended (rides : List Ride) (lat lng radiusKm : ℚ) :
    countActiveRequestsInArea (.ok rides) lat lng radiusKm
      = degreeDiskDemandCount rides lat lng radiusKm := by
  show countActiveLoop rides lat lng radiusKm = _
  induction rides with
  | nil => rfl
  | cons r rest ih =>
      simp only [countActiveLoop, degreeDiskDemandCount, ih, mul_111_sq_le]
      by_cases hs : r.status = RideStatusCancelled
      · simp [hs]
      · simp [hs]

/-! ### Payment theorems -/

/-- C2: when a payment under the idempotency key derived from the trip id
already exists, ProcessPayment returns exactly that record and leaves the
payment table and the PSP call counter unchanged, for any PSP outcome. -/
theorem process_payment_idempotent (pspOutcome : Except String Bool) (newID : String)
    (st : PayState) (tripID : String) (amount : ℚ) (p : Payment)
    (hTrip : tripID ≠ "") (hAmt : 0 < amount)
    (hExisting : getByIdempotencyKey st.payments (idempotencyKeyFor tripID) = some p) :
    ProcessPayment pspOutcome newID st tripID amount = .ok (p, st) := by
  unfold ProcessPayment
  rw [if_neg hTrip, if_neg (not_le.mpr hAmt)]
  simp only [hExisting]

/-- Witness for process_payment_idempotent: a second call for trip-1
returns the stored SUCCESS payment and does not touch the state. -/
theorem process_payment_idempotent_witness :
    ProcessPayment (.ok true) "pay-2" payStateW "trip-1" (25/2)
      = .ok (paymentW, payStateW) :=
  process_payment_idempotent (.ok true) "pay-2" payStateW "trip-1" (25/2) paymentW
    (by decide) (by norm_num)
    (by simp [payStateW, getByIdempotencyKey, paymentW])

theorem getByIdempotencyKey_append_update (ps : List Payment) (p : Payment) (pst : String)
    (h : getByIdempotencyKey ps p.idempotencyKey = none) :
    getByIdempotencyKey (paymentUpdateStatus (ps ++ [p]) p.id pst) p.idempotencyKey
      = some { p with status := pst } := by
  induction ps with
  | nil =>
      simp [paymentUpdateStatus, getByIdempotencyKey]
  | cons x rest ih =>
      unfold getByIdempotencyKey at h
      by_cases hx : x.idempotencyKey = p.idempotencyKey
      · rw [if_pos hx] at h
        cases h
      · rw [if_neg hx] at h
        simp only [List.cons_append, paymentUpdateStatus, getByIdempotencyKey]
        by_cases hid : x.id = p.id
        · rw [if_pos hid, if_neg (show ¬ ({ x with status := pst } : Payment).idempotencyKey
            = p.idempotencyKey from hx)]
          exact ih h
        · rw [if_neg hid, if_neg hx]
          exact ih h

/-! ### EndTrip theorems -/

theorem end_trip_run (processPmt : String → ℚ → Except SvcError Payment)
    (db : DB) (tripID : String) (now : ℚ) (trip0 : Trip) (ride : Ride) (trip1 : Trip)
    (h0 : tripID ≠ "")
    (hft : findTrip db.trips tripID = some trip0)
    (hne : ¬ trip0.status = TripStatusEnded)
    (hfr : findRide db.rides trip0.rideID = some ride)
    (htrip1 : trip1 = if trip0.status = TripStatusPaused ∧ trip0.pausedAt ≠ 0
        then { trip0 with totalPaused := trip0.totalPaused + (now - trip0.pausedAt) }
        else trip0) :
    EndTrip processPmt db tripID now
      = .ok ({ trip := { trip1 with
                 status := TripStatusEnded
                 fare := calculateFare trip1.startedAt now trip1.totalPaused *
                   (if ride.surgeMultiplier < 1 then 1 else ride.surgeMultiplier)
                 endedAt := now },
               payment :=
                 match processPmt trip1.id
                     (calculateFare trip1.startedAt now trip1.totalPaused *
                       (if ride.surgeMultiplier < 1 then 1 else ride.surgeMultiplier)) with
                 | .ok p => some p
                 | .error _ => none },
             { rides := updateRide db.rides { ride with status := RideStatusCompleted },
               trips := updateTrip db.trips { trip1 with
                 status := TripStatusEnded
                 fare := calculateFare trip1.startedAt now trip1.totalPaused *
                   (if ride.surgeMultiplier < 1 then 1 else ride.surgeMultiplier)
                 endedAt := now },
               drivers := updateDriverStatus db.drivers trip1.driverID DriverStatusOnline }) := by
  unfold EndTrip
  rw [if_neg h0]
  simp only [hft]
  rw [if_neg hne, ← htrip1]
  have hporid : trip1.rideID = trip0.rideID := by
    rw [htrip1]; split <;> rfl
  rw [hporid]
  simp only [hfr]

/-- Inversion: a successful EndTrip implies a found, not-yet-ended trip
and a found ride. -/
theorem end_trip_inv (processPmt : String → ℚ → Except SvcError Payment)
    (db : DB) (tripID : String) (now : ℚ) (resp : EndTripResp) (db' : DB)
    (hrun : EndTrip processPmt db tripID now = .ok (resp, db')) :
    tripID ≠ "" ∧ ∃ trip0 ride, findTrip db.trips tripID = some trip0 ∧
      ¬ trip0.status = TripStatusEnded ∧ findRide db.rides trip0.rideID = some ride := by
  unfold EndTrip at hrun
  by_cases h0 : tripID = ""
  · rw [if_pos h0] at hrun; exact Except.noConfusion hrun
  rw [if_neg h0] at hrun
  refine ⟨h0, ?_⟩
  cases hft : findTrip db.trips tripID with
  | none =>
      simp only [hft] at hrun
      exact Except.noConfusion hrun
  | some trip0 =>
      simp only [hft] at hrun
      by_cases hne : trip0.status = TripStatusEnded
      · rw [if_pos hne] at hrun; exact Except.noConfusion hrun
      rw [if_neg hne] at hrun
      refine ⟨trip0, ?_⟩
      set trip1 := if trip0.status = TripStatusPaused ∧ trip0.pausedAt ≠ 0
        then { trip0 with totalPaused := trip0.totalPaused + (now - trip0.pausedAt) }
        else trip0 with htrip1
      have hporid : trip1.rideID = trip0.rideID := by
        rw [htrip1]; split <;> rfl
      cases hfr : findRide db.rides trip0.rideID with
      | none =>
          rw [← hporid] at hfr
          simp only [hfr] at hrun
          exact Except.noConfusion hrun
      | some ride =>
          exact ⟨ride, rfl, hne, rfl⟩

/-- C1: whenever EndTrip succeeds, the stored trip is ENDED with
ended_at = now, and its fare equals the base amount
2.0 + 0.5 per minute over (ended_at - started_at) - total_paused, raised
to the 5.0 minimum when smaller, multiplied by max(1, surge multiplier)
of the trip's ride; in particular a trip of zero effective duration is
charged 5.0 times max(1, surge). -/
theorem end_trip_fare (processPmt : String → ℚ → Except SvcError Payment)
    (db : DB) (tripID : String) (now : ℚ) (resp : EndTripResp) (db' : DB) (r : Ride)
    (hrun : EndTrip processPmt db tripID now = .ok (resp, db'))
    (hride : findRide db.rides resp.trip.rideID = some r) :
    resp.trip.fare
      = max (2 + ((resp.trip.endedAt - resp.trip.startedAt - resp.trip.totalPaused) / 60) * (1/2)) 5
          * max 1 r.surgeMultiplier
  ∧ resp.trip.status = TripStatusEnded
  ∧ resp.trip.endedAt = now
  ∧ findTrip db'.trips resp.trip.id = some resp.trip
  ∧ (resp.trip.endedAt - resp.trip.startedAt - resp.trip.totalPaused = 0 →
      resp.trip.fare = 5 * max 1 r.surgeMultiplier) := by
  obtain ⟨h0, trip0, ride, hft, hne, hfr⟩ := end_trip_inv processPmt db tripID now resp db' hrun
  rw [end_trip_run processPmt db tripID now trip0 ride _ h0 hft hne hfr rfl] at hrun
  rw [Except.ok.injEq, Prod.mk.injEq] at hrun
  obtain ⟨hresp, hdb⟩ := hrun
  subst hdb
  subst hresp
  set trip1 := (if trip0.status = TripStatusPaused ∧ trip0.pausedAt ≠ 0
      then { trip0 with totalPaused := trip0.totalPaused + (now - trip0.pausedAt) }
      else trip0 : Trip) with htrip1
  have hpid : trip1.id = trip0.id := by rw [htrip1]; split <;> rfl
  have hporid : trip1.rideID = trip0.rideID := by rw [htrip1]; split <;> rfl
  simp only [] at hride ⊢
  rw [hporid] at hride
  rw [hfr] at hride
  injection hride with hr
  subst hr
  refine ⟨?_, trivial, trivial, ?_, ?_⟩
  · rw [calculateFare_eq_max, surge_floor_eq_max]
  · have h4 := findTrip_updateTrip ({ trip1 with
      status := TripStatusEnded
      fare := calculateFare trip1.startedAt now trip1.totalPaused *
        (if ride.surgeMultiplier < 1 then 1 else ride.surgeMultiplier)
      endedAt := now }) hft hpid
    rw [← (hpid.trans (findTrip_id hft))] at h4
    exact h4
  · intro hz
    rw [calculateFare_eq_max, surge_floor_eq_max, hz]
    rw [show (2:ℚ) + 0 / 60 * (1/2) = 2 by norm_num,
      max_eq_right (by norm_num : (2:ℚ) ≤ 5)]

/-- Witness for end_trip_fare: a 600-second trip with no pauses and
surge 1.0 ends with fare 7.0 = 2.0 + 10 minutes at 0.5. -/
theorem end_trip_fare_witness :
    EndTrip endPayFnW dbTripW "t1" 600 = .ok (respW, dbTripW')
  ∧ respW.trip.fare
      = max (2 + ((respW.trip.endedAt - respW.trip.startedAt - respW.trip.totalPaused) / 60) * (1/2)) 5
          * max 1 ({ rideAssignedW with status := RideStatusInTrip }).surgeMultiplier
  ∧ respW.trip.fare = 7 := by
  have hrun : EndTrip endPayFnW dbTripW "t1" 600 = .ok (respW, dbTripW') := by
    rw [end_trip_run endPayFnW dbTripW "t1" 600 tripStartedW
        ({ rideAssignedW with status := RideStatusInTrip }) tripStartedW
        (by decide)
        (by simp [dbTripW, findTrip, tripStartedW])
        (by decide)
        (by simp [dbTripW, findRide, tripStartedW, rideAssignedW, surgeProbeRide])
        (by simp [tripStartedW, TripStatusStarted, TripStatusPaused])]
    norm_num [respW, endedTripW, tripStartedW, dbTripW, dbTripW', rideAssignedW,
      surgeProbeRide, driverW, endPayFnW, calculateFare, updateTrip, updateRide,
      updateDriverStatus]
  have hride : findRide dbTripW.rides respW.trip.rideID
      = some ({ rideAssignedW with status := RideStatusInTrip }) := by
    simp [dbTripW, findRide, respW, endedTripW, tripStartedW, rideAssignedW, surgeProbeRide]
  refine ⟨hrun, (end_trip_fare endPayFnW dbTripW "t1" 600 respW dbTripW'
    ({ rideAssignedW with status := RideStatusInTrip }) hrun hride).1, rfl⟩

/-- C8: a PSP charge that errors or returns false is absorbed by
ProcessPayment: it returns without error a payment recorded with status
FAILED under the idempotency key; and EndTrip returns success with the
trip ENDED, the ride COMPLETED and the driver back ONLINE for every
outcome of the injected payment step, with the payment dropped from the
response when that step errors. -/
theorem psp_failure_absorbed :
    (∀ (emsg newID : String) (st : PayState) (tripID : String) (amount : ℚ),
      tripID ≠ "" → 0 < amount →
      getByIdempotencyKey st.payments (idempotencyKeyFor tripID) = none →
      ∃ st' : PayState,
        ProcessPayment (.error emsg) newID st tripID amount
          = .ok ({ id := newID, tripID := tripID, amount := amount,
                   status := PaymentStatusFailed,
                   idempotencyKey := idempotencyKeyFor tripID }, st')
        ∧ getByIdempotencyKey st'.payments (idempotencyKeyFor tripID)
            = some { id := newID, tripID := tripID, amount := amount,
                     status := PaymentStatusFailed,
                     idempotencyKey := idempotencyKeyFor tripID })
  ∧ (∀ (newID : String) (st : PayState) (tripID : String) (amount : ℚ),
      tripID ≠ "" → 0 < amount →
      getByIdempotencyKey st.payments (idempotencyKeyFor tripID) = none →
      ∃ st' : PayState,
        ProcessPayment (.ok false) newID st tripID amount
          = .ok ({ id := newID, tripID := tripID, amount := amount,
                   status := PaymentStatusFailed,
                   idempotencyKey := idempotencyKeyFor tripID }, st')
        ∧ getByIdempotencyKey st'.payments (idempotencyKeyFor tripID)
            = some { id := newID, tripID := tripID, amount := amount,
                     status := PaymentStatusFailed,
                     idempotencyKey := idempotencyKeyFor tripID })
  ∧ (∀ (processPmt : String → ℚ → Except SvcError Payment) (db : DB) (tripID : String)
      (now : ℚ) (trip0 : Trip) (ride : Ride),
      tripID ≠ "" →
      findTrip db.trips tripID = some trip0 →
      ¬ trip0.status = TripStatusEnded →
      findRide db.rides trip0.rideID = some ride →
      ∃ resp db', EndTrip processPmt db tripID now = .ok (resp, db')
        ∧ (∀ e, processPmt resp.trip.id resp.trip.fare = .error e → resp.payment = none)
        ∧ resp.trip.status = TripStatusEnded
        ∧ findRide db'.rides ride.id = some { ride with status := RideStatusCompleted }
        ∧ (∀ d, findDriver db.drivers trip0.driverID = some d →
            findDriver db'.drivers trip0.driverID = some { d with status := DriverStatusOnline })) := by
  refine ⟨?_, ?_, ?_⟩
  · intro emsg newID st tripID amount hTrip hAmt hNone
    refine ⟨⟨paymentUpdateStatus (st.payments ++ [{ id := newID, tripID := tripID, amount := amount, status := PaymentStatusPending, idempotencyKey := idempotencyKeyFor tripID }]) newID PaymentStatusFailed, st.pspCalls + 1⟩, ?_, ?_⟩
    · unfold ProcessPayment
      rw [if_neg hTrip, if_neg (not_le.mpr hAmt)]
      simp only [hNone]
    · exact getByIdempotencyKey_append_update st.payments
        { id := newID, tripID := tripID, amount := amount,
          status := PaymentStatusPending, idempotencyKey := idempotencyKeyFor tripID }
        PaymentStatusFailed hNone
  · intro newID st tripID amount hTrip hAmt hNone
    refine ⟨⟨paymentUpdateStatus (st.payments ++ [{ id := newID, tripID := tripID, amount := amount, status := PaymentStatusPending, idempotencyKey := idempotencyKeyFor tripID }]) newID PaymentStatusFailed, st.pspCalls + 1⟩, ?_, ?_⟩
    · unfold ProcessPayment
      rw [if_neg hTrip, if_neg (not_le.mpr hAmt)]
      simp only [hNone]
    · exact getByIdempotencyKey_append_update st.payments
        { id := newID, tripID := tripID, amount := amount,
          status := PaymentStatusPending, idempotencyKey := idempotencyKeyFor tripID }
        PaymentStatusFailed hNone
  · intro processPmt db tripID now trip0 ride h0 hft hne hfr
    have e1 := end_trip_run processPmt db tripID now trip0 ride _ h0 hft hne hfr rfl
    refine ⟨_, _, e1, ?_, rfl, ?_, ?_⟩
    · intro e he
      simp only [] at he ⊢
      rw [he]
    · have h4 := findRide_updateRide ({ ride with status := RideStatusCompleted }) hfr rfl
      rw [← (findRide_id hfr)] at h4
      exact h4
    · intro d hd
      have hdid : (if trip0.status = TripStatusPaused ∧ trip0.pausedAt ≠ 0
          then { trip0 with totalPaused := trip0.totalPaused + (now - trip0.pausedAt) }
          else trip0 : Trip).driverID = trip0.driverID := by split <;> rfl
      simp only [hdid]
      exact findDriver_updateDriverStatus DriverStatusOnline hd

/-- Witness for psp_failure_absorbed: a PSP error on a fresh payment for
trip-9 yields a FAILED record, and ending trip t1 with a failing payment
step still succeeds with no payment in the response. -/
theorem psp_failure_absorbed_witness :
    (∃ st', ProcessPayment (.error "boom") "pay-9" payStateEmpty "trip-9" 8
        = .ok ({ id := "pay-9", tripID := "trip-9", amount := 8, status := PaymentStatusFailed, idempotencyKey := idempotencyKeyFor "trip-9" }, st')
      ∧ getByIdempotencyKey st'.payments (idempotencyKeyFor "trip-9")
          = some { id := "pay-9", tripID := "trip-9", amount := 8, status := PaymentStatusFailed, idempotencyKey := idempotencyKeyFor "trip-9" })
  ∧ (∃ resp db', EndTrip endPayFnW dbTripW "t1" 600 = .ok (resp, db')
      ∧ resp.payment = none ∧ resp.trip.status = TripStatusEnded) := by
  constructor
  · exact psp_failure_absorbed.1 "boom" "pay-9" payStateEmpty "trip-9" 8 (by decide)
      (by norm_num) (by simp [payStateEmpty, getByIdempotencyKey])
  · obtain ⟨resp, db', h1, h2, h3, _, _⟩ := psp_failure_absorbed.2.2 endPayFnW dbTripW "t1" 600
      tripStartedW ({ rideAssignedW with status := RideStatusInTrip }) (by decide)
      (by simp [dbTripW, findTrip, tripStartedW]) (by decide)
      (by simp [dbTripW, findRide, tripStartedW, rideAssignedW, surgeProbeRide])
    exact ⟨resp, db', h1, h2 (.errStore "psp down") rfl, h3⟩

/-! ### StartTrip theorems -/

/-- C7: with non-empty ids, StartTrip fails with the conflict error
ErrDriverHasActiveTrip (HTTP 409) whenever the driver has a trip whose
status differs from ENDED, fails with ErrRideNotAssigned when the ride is
not ASSIGNED, fails with ErrDriverNotAssignedToRide when the ride is
assigned to a different driver, and only when all three preconditions
hold does it create a STARTED trip, move the ride to IN_TRIP and the
driver to ON_TRIP. -/
theorem start_trip_preconditions (newTripID : String) (db : DB)
    (rideID driverID : String) (now : ℚ)
    (h1 : rideID ≠ "") (h2 : driverID ≠ "") :
    (∀ t, getActiveByDriverID db.trips driverID = some t →
      StartTrip newTripID db rideID driverID now = .error .errDriverHasActiveTrip
        ∧ errorStatusCode .errDriverHasActiveTrip = 409)
  ∧ (∀ ride, getActiveByDriverID db.trips driverID = none →
      findRide db.rides rideID = some ride → ¬ ride.status = RideStatusAssigned →
      StartTrip newTripID db rideID driverID now = .error .errRideNotAssigned)
  ∧ (∀ ride, getActiveByDriverID db.trips driverID = none →
      findRide db.rides rideID = some ride → ride.status = RideStatusAssigned →
      ¬ ride.assignedDriverID = driverID →
      StartTrip newTripID db rideID driverID now = .error .errDriverNotAssignedToRide)
  ∧ (∀ ride, getActiveByDriverID db.trips driverID = none →
      findRide db.rides rideID = some ride → ride.status = RideStatusAssigned →
      ride.assignedDriverID = driverID →
      StartTrip newTripID db rideID driverID now
        = .ok ({ id := newTripID, rideID := rideID, driverID := driverID, status := TripStatusStarted, fare := 0, startedAt := now, endedAt := 0, pausedAt := 0, totalPaused := 0 },
          { rides := updateRide db.rides { ride with status := RideStatusInTrip },
            trips := db.trips ++ [{ id := newTripID, rideID := rideID, driverID := driverID, status := TripStatusStarted, fare := 0, startedAt := now, endedAt := 0, pausedAt := 0, totalPaused := 0 }],
            drivers := updateDriverStatus db.drivers driverID DriverStatusOnTrip })) := by
  refine ⟨?_, ?_, ?_, ?_⟩
  · intro t ht
    refine ⟨?_, rfl⟩
    unfold StartTrip
    rw [if_neg h1, if_neg h2]
    simp only [ht]
  · intro ride hact hfind hst
    unfold StartTrip
    rw [if_neg h1, if_neg h2]
    simp only [hact, hfind]
    rw [if_pos hst]
  · intro ride hact hfind hst hdrv
    unfold StartTrip
    rw [if_neg h1, if_neg h2]
    simp only [hact, hfind]
    rw [if_neg (by simp [hst]), if_pos hdrv]
  · intro ride hact hfind hst hdrv
    unfold StartTrip
    rw [if_neg h1, if_neg h2]
    simp only [hact, hfind]
    rw [if_neg (by simp [hst]), if_neg (by simp [hdrv])]

/-- Witness for start_trip_preconditions: all four branches exercised on
concrete databases. -/
theorem start_trip_preconditions_witness :
    StartTrip "t9" dbActiveW "r1" "d1" 100 = .error .errDriverHasActiveTrip
  ∧ errorStatusCode .errDriverHasActiveTrip = 409
  ∧ StartTrip "t9" dbRequestedW "r1" "d1" 100 = .error .errRideNotAssigned
  ∧ StartTrip "t9" dbOtherDriverW "r1" "d1" 100 = .error .errDriverNotAssignedToRide
  ∧ StartTrip "t9" dbStartW "r1" "d1" 100
      = .ok ({ id := "t9", rideID := "r1", driverID := "d1", status := TripStatusStarted, fare := 0, startedAt := 100, endedAt := 0, pausedAt := 0, totalPaused := 0 },
        { rides := updateRide dbStartW.rides { rideAssignedW with status := RideStatusInTrip },
          trips := dbStartW.trips ++ [{ id := "t9", rideID := "r1", driverID := "d1", status := TripStatusStarted, fare := 0, startedAt := 100, endedAt := 0, pausedAt := 0, totalPaused := 0 }],
          drivers := updateDriverStatus dbStartW.drivers "d1" DriverStatusOnTrip }) := by
  refine ⟨?_, rfl, ?_, ?_, ?_⟩
  · exact ((start_trip_preconditions "t9" dbActiveW "r1" "d1" 100 (by decide) (by decide)).1
      tripStartedW (by simp [dbActiveW, getActiveByDriverID, tripStartedW,
        TripStatusStarted, TripStatusEnded])).1
  · exact (start_trip_preconditions "t9" dbRequestedW "r1" "d1" 100 (by decide) (by decide)).2.1
      ({ rideAssignedW with status := RideStatusRequested, assignedDriverID := "" })
      (by simp [dbRequestedW, getActiveByDriverID])
      (by simp [dbRequestedW, findRide, rideAssignedW, surgeProbeRide])
      (by decide)
  · exact (start_trip_preconditions "t9" dbOtherDriverW "r1" "d1" 100 (by decide) (by decide)).2.2.1
      ({ rideAssignedW with assignedDriverID := "d2" })
      (by simp [dbOtherDriverW, getActiveByDriverID])
      (by simp [dbOtherDriverW, findRide, rideAssignedW, surgeProbeRide])
      (by decide) (by decide)
  · exact (start_trip_preconditions "t9" dbStartW "r1" "d1" 100 (by decide) (by decide)).2.2.2
      rideAssignedW
      (by simp [dbStartW, getActiveByDriverID])
      (by simp [dbStartW, findRide, rideAssignedW, surgeProbeRide])
      (by decide) (by decide)

/-! ### CancelRide theorems -/

theorem cancel_ride_run (db : DB) (rideID cancelledBy reason : String) (now : ℚ) (ride : Ride)
    (h0 : rideID ≠ "") (hfind : findRide db.rides rideID = some ride)
    (h : ride.status = RideStatusRequested ∨ ride.status = RideStatusAssigned) :
    CancelRide db rideID cancelledBy reason now
      = (.ok { ride with status := RideStatusCancelled, cancelledAt := now, cancelReason := reason },
         { db with rides := updateRide db.rides { ride with status := RideStatusCancelled, cancelledAt := now, cancelReason := reason } }) := by
  unfold CancelRide
  rw [if_neg h0]
  simp only [hfind]
  have hc1 : ¬ ride.status = RideStatusCancelled := by
    rcases h with h | h <;> rw [h] <;> decide
  have hc2 : ¬ (ride.status ≠ RideStatusRequested ∧ ride.status ≠ RideStatusAssigned) := by
    rintro ⟨ha, hb⟩
    rcases h with h | h
    · exact ha h
    · exact hb h
  rw [if_neg hc1, if_neg hc2]

/-- C9: CancelRide succeeds exactly on REQUESTED or ASSIGNED rides,
setting status CANCELLED, cancelled_at and the reason; an already
CANCELLED ride yields the conflict error ErrRideAlreadyCancelled
(HTTP 409) and an IN_TRIP or COMPLETED ride yields
ErrRideCannotBeCancelled, with the database unchanged in every
rejecting case. -/
theorem cancel_ride_state_machine (db : DB) (rideID cancelledBy reason : String)
    (now : ℚ) (ride : Ride)
    (h0 : rideID ≠ "") (hfind : findRide db.rides rideID = some ride) :
    (ride.status = RideStatusRequested ∨ ride.status = RideStatusAssigned →
      CancelRide db rideID cancelledBy reason now
        = (.ok { ride with status := RideStatusCancelled, cancelledAt := now, cancelReason := reason },
           { db with rides := updateRide db.rides { ride with status := RideStatusCancelled, cancelledAt := now, cancelReason := reason } }))
  ∧ (ride.status = RideStatusCancelled →
      CancelRide db rideID cancelledBy reason now = (.error .errRideAlreadyCancelled, db)
      ∧ errorStatusCode .errRideAlreadyCancelled = 409)
  ∧ (ride.status = RideStatusInTrip ∨ ride.status = RideStatusCompleted →
      CancelRide db rideID cancelledBy reason now = (.error .errRideCannotBeCancelled, db)) := by
  refine ⟨fun h => cancel_ride_run db rideID cancelledBy reason now ride h0 hfind h, ?_, ?_⟩
  · intro h
    refine ⟨?_, rfl⟩
    unfold CancelRide
    rw [if_neg h0]
    simp only [hfind]
    rw [if_pos h]
  · intro h
    unfold CancelRide
    rw [if_neg h0]
    simp only [hfind]
    have hc1 : ¬ ride.status = RideStatusCancelled := by
      rcases h with h | h <;> rw [h] <;> decide
    have hc2 : ride.status ≠ RideStatusRequested ∧ ride.status ≠ RideStatusAssigned := by
      rcases h with h | h <;> rw [h] <;> exact ⟨by decide, by decide⟩
    rw [if_neg hc1, if_pos hc2]

/-- C10: a successful cancel of an ASSIGNED ride writes only the ride
row: the trips and drivers tables are untouched, the cancelled ride
keeps its assigned_driver_id, and a driver who was ON_TRIP at
assignment is still ON_TRIP afterwards. -/
theorem cancel_ride_frame (db : DB) (rideID cancelledBy reason : String) (now : ℚ) (ride : Ride)
    (h0 : rideID ≠ "") (hfind : findRide db.rides rideID = some ride)
    (hst : ride.status = RideStatusAssigned) :
    (CancelRide db rideID cancelledBy reason now).2.trips = db.trips
  ∧ (CancelRide db rideID cancelledBy reason now).2.drivers = db.drivers
  ∧ (CancelRide db rideID cancelledBy reason now).1
      = .ok { ride with status := RideStatusCancelled, cancelledAt := now, cancelReason := reason }
  ∧ ({ ride with status := RideStatusCancelled, cancelledAt := now, cancelReason := reason } : Ride).assignedDriverID = ride.assignedDriverID
  ∧ (∀ d, findDriver db.drivers ride.assignedDriverID = some d → d.status = DriverStatusOnTrip →
      findDriver (CancelRide db rideID cancelledBy reason now).2.drivers ride.assignedDriverID = some d) := by
  have hrun := cancel_ride_run db rideID cancelledBy reason now ride h0 hfind (Or.inr hst)
  rw [hrun]
  exact ⟨rfl, rfl, rfl, rfl, fun d hd _ => hd⟩

/-- Witness for cancel_ride_state_machine: the three branches on
concrete databases. -/
theorem cancel_ride_state_machine_witness :
    CancelRide dbCancelW "r1" "u1" "changed mind" 50
      = (.ok { rideAssignedW with status := RideStatusCancelled, cancelledAt := 50, cancelReason := "changed mind" },
         { dbCancelW with rides := updateRide dbCancelW.rides { rideAssignedW with status := RideStatusCancelled, cancelledAt := 50, cancelReason := "changed mind" } })
  ∧ CancelRide dbCancelledW "r1" "u1" "again" 50 = (.error .errRideAlreadyCancelled, dbCancelledW)
  ∧ CancelRide dbInTripW "r1" "u1" "too late" 50 = (.error .errRideCannotBeCancelled, dbInTripW) := by
  refine ⟨?_, ?_, ?_⟩
  · exact (cancel_ride_state_machine dbCancelW "r1" "u1" "changed mind" 50 rideAssignedW
      (by decide) (by simp [dbCancelW, findRide, rideAssignedW, surgeProbeRide])).1
      (Or.inr (by decide))
  · exact ((cancel_ride_state_machine dbCancelledW "r1" "u1" "again" 50
      ({ rideAssignedW with status := RideStatusCancelled })
      (by decide) (by simp [dbCancelledW, findRide, rideAssignedW, surgeProbeRide])).2.1
      (by decide)).1
  · exact (cancel_ride_state_machine dbInTripW "r1" "u1" "too late" 50
      ({ rideAssignedW with status := RideStatusInTrip })
      (by decide) (by simp [dbInTripW, findRide, rideAssignedW, surgeProbeRide])).2.2
      (Or.inl (by decide))

/-- Witness for cancel_ride_frame: cancelling the ASSIGNED ride r1 keeps
trips and drivers intact and driver d1 stays ON_TRIP. -/
theorem cancel_ride_frame_witness :
    (CancelRide dbCancelW "r1" "u1" "changed mind" 50).2.trips = dbCancelW.trips
  ∧ (CancelRide dbCancelW "r1" "u1" "changed mind" 50).2.drivers = dbCancelW.drivers
  ∧ (CancelRide dbCancelW "r1" "u1" "changed mind" 50).1
      = .ok { rideAssignedW with status := RideStatusCancelled, cancelledAt := 50, cancelReason := "changed mind" }
  ∧ ({ rideAssignedW with status := RideStatusCancelled, cancelledAt := 50, cancelReason := "changed mind" } : Ride).assignedDriverID = rideAssignedW.assignedDriverID
  ∧ (∀ d, findDriver dbCancelW.drivers rideAssignedW.assignedDriverID = some d → d.status = DriverStatusOnTrip →
      findDriver (CancelRide dbCancelW "r1" "u1" "changed mind" 50).2.drivers rideAssignedW.assignedDriverID = some d) :=
  cancel_ride_frame dbCancelW "r1" "u1" "changed mind" 50 rideAssignedW
    (by decide) (by simp [dbCancelW, findRide, rideAssignedW, surgeProbeRide]) (by decide)

/-! ### Matcher theorems -/

/-- C6 counterexample: with the ride REQUESTED and the ride lock held, a
failing nearby-drivers read makes Match return the store error itself,
not the claimed ErrNoDriverAvailable. -/
theorem match_nearby_error_counterexample :
    Match envNearbyFailW dbMatchW reqMatchW = .error (.errStore "redis: connection refused")
  ∧ ¬ Match envNearbyFailW dbMatchW reqMatchW = .error .errNoDriverAvailable := by
  have h : Match envNearbyFailW dbMatchW reqMatchW
      = .error (.errStore "redis: connection refused") := by
    simp [Match, envNearbyFailW, dbMatchW, reqMatchW, findRide, rideRequestedM, surgeProbeRide]
  exact ⟨h, by rw [h]; simp⟩

/-- C6 (amended): when the nearby-drivers read fails, Match propagates
the store error to the caller unchanged; ErrNoDriverAvailable is
returned when the read succeeds with an empty candidate list (and when
the candidate loop exhausts without an assignment). -/
theorem match_nearby_error_propagates (env : MatchEnv) (db : DB) (req : MatchRequest) (ride : Ride)
    (hl : env.acquireRideLockResult = .ok true)
    (hr : findRide db.rides req.rideID = some ride)
    (hs : ride.status = RideStatusRequested) :
    (∀ s, env.nearbyResult = .error s → Match env db req = .error (.errStore s))
  ∧ (env.nearbyResult = .ok [] → Match env db req = .error .errNoDriverAvailable) := by
  constructor
  · intro s hn
    by_cases hc : env.hasCacheStore <;> simp [Match, hc, hl, hr, hs, hn]
  · intro hn
    by_cases hc : env.hasCacheStore <;> simp [Match, hc, hl, hr, hs, hn]

theorem match_nearby_error_propagates_witness :
    Match envNearbyFailW dbMatchW reqMatchW = .error (.errStore "redis: connection refused")
  ∧ Match envNearbyEmptyW dbMatchW reqMatchW = .error .errNoDriverAvailable := by
  constructor
  · exact (match_nearby_error_propagates envNearbyFailW dbMatchW reqMatchW rideRequestedM
      rfl (by simp [dbMatchW, reqMatchW, findRide, rideRequestedM, surgeProbeRide]) rfl).1
      "redis: connection refused" rfl
  · exact (match_nearby_error_propagates envNearbyEmptyW dbMatchW reqMatchW rideRequestedM
      rfl (by simp [dbMatchW, reqMatchW, findRide, rideRequestedM, surgeProbeRide]) rfl).2 rfl
